import Mathlib

/-!
Verification of the Specialist Orchestration & Quality-Gated Generation Engine
(Dr_chatbot). Shallow embedding of `advanced_prompts.py` and
`multi_agent_system.py`: query classification, specialist routing, prompt
composition, confidence computation, consensus arbitration, and the
(spec-modelled) refinement loop. Python floats are modelled as rationals;
Python substring tests (`in`) as an executable scan over character lists.
-/

namespace DrChatbot

/-- Python's substring test on character lists: `needle` occurs contiguously
inside the second argument. Mirrors `kw in question_lower`. -/
def occursIn (needle : List Char) : List Char → Bool
  | [] => needle.isEmpty
  | c :: rest => needle.isPrefixOf (c :: rest) || occursIn needle rest

/-- `strContains h n = true` iff `n` occurs as a contiguous substring of `h`;
the embedding of Python's `n in h`. -/
def strContains (haystack needle : String) : Bool :=
  occursIn needle.data haystack.data

/-- Python `str.lower()` (character-wise ASCII lowering, which agrees with
Python on all the ASCII inputs of this system). -/
def py_lower (s : String) : String :=
  String.mk (s.data.map Char.toLower)

/-- Python `str.startswith(prefix)`. -/
def py_startswith (s pre : String) : Bool :=
  pre.data.isPrefixOf s.data

/-- Python `str.strip()`: drop leading and trailing whitespace. -/
def py_strip (s : String) : String :=
  String.mk (((s.data.dropWhile Char.isWhitespace).reverse.dropWhile Char.isWhitespace).reverse)

/-- Python `str.split(sep)` for a one-character separator, on character
lists: splits at every occurrence, keeping empty pieces. -/
def splitCharList (sep : Char) : List Char → List (List Char)
  | [] => [[]]
  | c :: rest =>
      let groups := splitCharList sep rest
      if c = sep then [] :: groups
      else
        match groups with
        | [] => [[c]]
        | g :: gs => (c :: g) :: gs

/-- Python `response.split(chr(10))`. -/
def py_splitlines (s : String) : List String :=
  (splitCharList (Char.ofNat 10) s.data).map String.mk

/-- `QueryType` enumeration from `advanced_prompts.py`. -/
inductive QueryType where
  | DIAGNOSIS
  | TREATMENT
  | PREVENTION
  | EMERGENCY
  | GENERAL
  | PROCEDURE
deriving DecidableEq, Fintype

/-- `AgentType` enumeration from `multi_agent_system.py` (note: it has no
PROCEDURE member). -/
inductive AgentType where
  | DIAGNOSTIC
  | TREATMENT
  | PREVENTION
  | EMERGENCY
  | GENERAL
deriving DecidableEq, Fintype

/-- `QueryClassifier.__init__`: the keyword table, per category. `GENERAL`
has no entry in the Python dict; the scoring loop iterates only the five
keyed categories, in insertion order. -/
def classification_keywords : QueryType → List String
  | QueryType.DIAGNOSIS =>
      ["pain", "hurt", "ache", "swollen", "bleeding", "sensitive", "symptoms",
       "what's wrong", "diagnosis", "problem", "issue", "concern", "feels like"]
  | QueryType.TREATMENT =>
      ["treatment", "fix", "repair", "cure", "heal", "options", "what can be done",
       "how to treat", "therapy", "medication", "surgery"]
  | QueryType.PREVENTION =>
      ["prevent", "avoid", "stop", "care", "maintenance", "hygiene", "brush",
       "floss", "diet", "habits", "routine", "protect"]
  | QueryType.EMERGENCY =>
      ["emergency", "urgent", "severe", "unbearable", "can't sleep", "swelling",
       "infection", "trauma", "accident", "broken", "knocked out"]
  | QueryType.PROCEDURE =>
      ["procedure", "surgery", "operation", "implant", "crown", "filling",
       "root canal", "extraction", "cleaning", "whitening", "braces"]
  | QueryType.GENERAL => []

/-- Insertion order of the Python keyword dict, as iterated by the scoring
loop in `classify_query`. -/
def keyword_order : List QueryType :=
  [QueryType.DIAGNOSIS, QueryType.TREATMENT, QueryType.PREVENTION,
   QueryType.EMERGENCY, QueryType.PROCEDURE]

/-- Keyword hit count of one category against the lowercased question:
`sum(1 for keyword in keywords if keyword in question_lower)`. -/
def scoreOf (question_lower : String) (c : QueryType) : Nat :=
  ((classification_keywords c).filter (fun kw => strContains question_lower kw)).length

/-- CPython's `max(iterable, key=f)` over a nonempty association list:
keeps the first element, replacing only on a strictly greater value, so the
earliest maximum wins. -/
def pyMaxSnd (best : QueryType × Nat) : List (QueryType × Nat) → QueryType × Nat
  | [] => best
  | x :: rest => pyMaxSnd (if x.2 > best.2 then x else best) rest

/-- `QueryClassifier.classify_query`: lowercase; return EMERGENCY on any
emergency-keyword hit; otherwise score every keyed category and return the
first category attaining the maximal score, or GENERAL when all scores are
zero. -/
def classify_query (user_question : String) : QueryType :=
  let question_lower := py_lower user_question
  if (classification_keywords QueryType.EMERGENCY).any
      (fun kw => strContains question_lower kw) then
    QueryType.EMERGENCY
  else
    let scores := keyword_order.map (fun c => (c, scoreOf question_lower c))
    if 0 < (scores.map Prod.snd).foldr max 0 then
      match scores with
      | [] => QueryType.GENERAL
      | h :: t => (pyMaxSnd h t).1
    else
      QueryType.GENERAL

/-- The classification rule as the spec words it for questions free of
emergency keywords: per-category keyword counts, the strictly greatest count
wins, ties resolve by the priority order Diagnosis > Treatment > Prevention >
Procedure, and an all-zero score row yields General. Stated for comparison
with `classify_query`. -/
def spec_classify (user_question : String) : QueryType :=
  let ql := py_lower user_question
  let d := scoreOf ql QueryType.DIAGNOSIS
  let t := scoreOf ql QueryType.TREATMENT
  let p := scoreOf ql QueryType.PREVENTION
  let r := scoreOf ql QueryType.PROCEDURE
  let m := max (max (max d t) p) r
  if m = 0 then QueryType.GENERAL
  else if d = m then QueryType.DIAGNOSIS
  else if t = m then QueryType.TREATMENT
  else if p = m then QueryType.PREVENTION
  else QueryType.PROCEDURE

/-- `MultiAgentOrchestrator.route_query`'s routing table: `QueryType` to
`AgentType`; PROCEDURE routes to the TREATMENT agent. -/
def routing_map : QueryType → AgentType
  | QueryType.DIAGNOSIS => AgentType.DIAGNOSTIC
  | QueryType.TREATMENT => AgentType.TREATMENT
  | QueryType.PREVENTION => AgentType.PREVENTION
  | QueryType.EMERGENCY => AgentType.EMERGENCY
  | QueryType.PROCEDURE => AgentType.TREATMENT
  | QueryType.GENERAL => AgentType.GENERAL

/-- `MultiAgentOrchestrator.route_query`: classify, then map to an agent. -/
def route_query (user_question : String) : AgentType :=
  routing_map (classify_query user_question)

/-- `ChainOfThoughtPrompts._get_base_persona`: the fixed persona block. -/
def base_persona : String :=
  "You are Dr. Meenakshi Tomar, DDS - a highly experienced dental professional with over 30 years of practice.\n\nCORE IDENTITY:\n- Graduated from NYU School of Dentistry in 2000\n- Practicing since 1989 with extensive experience\n- Specializes in full mouth reconstruction, smile makeovers, laser surgery\n- WCLI certified for advanced laser procedures\n- Located at Edmonds Bay Dental in Edmonds, WA\n- Phone: (425) 775-5162\n\nCOMMUNICATION STYLE:\n- Warm, empathetic, and professional\n- Uses \"I\" statements naturally (I recommend, I\u0027ve seen, I do)\n- Explains complex concepts in simple terms\n- Shows genuine concern for patient wellbeing\n- Asks follow-up questions to better understand patient needs\n"

/-- `ChainOfThoughtPrompts._get_reasoning_templates`: per-category
response-shape templates. -/
def reasoning_templates : QueryType → String
  | QueryType.DIAGNOSIS =>
      "\nRESPONSE FORMAT - DETAILED BUT ORGANIZED:\n1. Direct answer about the condition\n2. Key symptoms/causes (use bullet points)\n3. Immediate recommendations\n4. Follow-up question\n\nExample: \"Based on your symptoms, this sounds like gingivitis by Dr Menakshi Tomar\u0027s assessment.\n\nCommon signs include:\n• Red, swollen gums\n• Bleeding during brushing\n• Bad breath\n• Tender gums\n\nI recommend improving your oral hygiene routine and scheduling a professional cleaning. How long have you been experiencing these symptoms? 🦷\"\n"
  | QueryType.TREATMENT =>
      "\nRESPONSE FORMAT - BRIEF AND CLEAR (2-3 sentences max):\n1. Answer the treatment question directly\n2. Mention one key benefit\n3. Suggest next step\n\nExample: \"Yes, I do [treatment] at my  best practice by Dr Menakshi Tomar. This treatment [key benefit]. Would you like to schedule a consultation?\"\n"
  | QueryType.PREVENTION =>
      "\nRESPONSE FORMAT - DETAILED PREVENTION GUIDANCE:\n1. Answer the prevention question directly\n2. Key prevention strategies (use bullet points)\n3. Lifestyle recommendations\n4. Regular care importance\n5. Follow-up question\n\nExample: \"To prevent gum disease, I recommend a comprehensive approach by Dr Menakshi Tomar.\n\nKey prevention strategies:\n• Brush twice daily with fluoride toothpaste\n• Floss daily to remove plaque between teeth\n• Use antimicrobial mouthwash\n• Avoid sugary snacks and drinks\n• Schedule regular cleanings every 6 months\n\nThese steps significantly reduce your risk of dental problems. When was your last professional cleaning? 💡\"\n"
  | QueryType.EMERGENCY =>
      "\nEMERGENCY ASSESSMENT PROTOCOL:\n1. IMMEDIATE CONCERN: Is this a dental emergency requiring urgent care?\n2. PAIN MANAGEMENT: Immediate steps to manage discomfort\n3. RISK EVALUATION: Potential complications if left untreated\n4. URGENT ACTIONS: What needs to be done right now\n5. FOLLOW-UP CARE: Next steps after immediate treatment\n\nThis requires immediate attention - here\u0027s my assessment:\n"
  | QueryType.PROCEDURE =>
      "\nRESPONSE FORMAT - DETAILED PROCEDURE EXPLANATION:\n1. Brief overview of procedure\n2. Key steps/process (use bullet points)\n3. Benefits and outcomes\n4. Recovery/aftercare tips\n5. Consultation offer\n\nExample: \"Dental implants replace missing teeth with titanium posts by Dr Menakshi Tomar.\n\nThe process includes:\n• Initial consultation and X-rays\n• Surgical placement of implant\n• Healing period (3-6 months)\n• Crown attachment\n\nBenefits include natural feel and permanent solution. Recovery involves soft foods for a few days.\n\nWould you like to schedule a consultation to discuss your specific case? 🦷\"\n"
  | QueryType.GENERAL =>
      "\nKEEP ANSWERS SHORT AND HELPFUL:\n1. Answer the question directly\n2. Give practical advice\n3. Ask follow-up if needed\n\nProvide a brief, professional response:\n"

/-- The CRITICAL RESPONSE REQUIREMENTS / FORMATTING EXAMPLES tail of the
chain-of-thought prompt (the formatting rules of the compose call). -/
def cot_requirements : String :=
  "\n\nCRITICAL RESPONSE REQUIREMENTS:\n- For SIMPLE questions: 2-3 sentences maximum\n- For DISEASES/PROCEDURES/PROCESSES: Detailed but organized response with bullet points\n- Answer the question directly in first sentence\n- Use bullet points for key information when explaining diseases/procedures\n- PROPER FORMATTING: Use line breaks and spacing for readability\n- CONTEXTUAL EMOJIS: Choose emoji based on topic (🦷 dental, 😊 friendly, 🚨 emergency, 💡 tips, 📅 appointment)\n- Keep it conversational and warm like talking to a friend\n- Use \"I\" statements naturally (I do, I recommend, I\u0027ve seen)\n- Always mention \"by Dr Menakshi Tomar\" when referring to practice/treatment\n\nFORMATTING EXAMPLES:\n\nSIMPLE QUESTION - GOOD FORMAT:\n\"Yes, I do dental implants at my practice by Dr Menakshi Tomar. They\u0027re an excellent way to replace missing teeth and feel just like your natural teeth.\n\nWould you like to schedule a consultation to discuss your specific needs? 🦷\"\n\nDETAILED QUESTION - GOOD FORMAT:\n\"Yes, we have dental X-ray facilities at my practice by Dr Menakshi Tomar. X-rays help me diagnose hidden issues that aren\u0027t visible during regular exams.\n\nKey benefits include:\n• Detecting decay between teeth\n• Identifying bone loss\n• Finding abscesses or cysts\n• Checking for developmental issues\n\nThe radiation exposure is very low and completely safe. When was your last X-ray taken? 📸\"\n\nBAD FORMAT (Poor spacing):\n\"Yes, we do have the facility for dental X-rays at Edmonds Bay Dental, by Dr. Meenakshi Tomar. Dental X-rays are essential for accurately diagnosing hidden issues that may not be visible during a regular exam. They help me identify: Abscesses or cysts Bone loss Decay between teeth...\"\n\nNow provide your WELL-FORMATTED response with proper spacing and contextual emoji:\n"

/-- `ChainOfThoughtPrompts.get_chain_of_thought_prompt`: persona, patient
question, optional retrieved-context block (only when `context` is
non-empty, mirroring Python string truthiness), category template, and the
formatting-rules tail. -/
def get_chain_of_thought_prompt (query_type : QueryType) (user_question : String)
    (context : String) : String :=
  base_persona ++ "\n\nPATIENT QUESTION: " ++ user_question ++ "\n\n" ++
    (if context ≠ "" then "RELEVANT CONTEXT FROM KNOWLEDGE BASE: " ++ context else "") ++
    "\n\n" ++ reasoning_templates query_type ++ cot_requirements

/-- `"\n".join(f"- {issue}" for issue in quality_issues)` from
`get_reprompt_template`. -/
def join_defects : List String → String
  | [] => ""
  | [issue] => "- " ++ issue
  | issue :: rest => "- " ++ issue ++ "\n" ++ join_defects rest

/-- Static middle part of the reprompt template (between the defect list and
the previous answer). -/
def reprompt_mid : String := "\n\nORIGINAL RESPONSE:\n"

/-- Static tail of the reprompt template (the numbered improvement
instructions). -/
def reprompt_tail : String :=
  "\n\nPlease provide an improved response that:\n1. Has PROPER FORMATTING with line breaks and spacing\n2. Answers the question directly in first sentence\n3. Maintains Dr. Meenakshi Tomar\u0027s warm, caring persona\n4. Uses conversational language like talking to a friend\n5. Uses bullet points for lists with proper spacing\n6. Uses CONTEXTUAL emoji based on topic:\n   🦷 for dental procedures/treatments\n   😊 for general friendly responses\n   🚨 for emergencies\n   💡 for tips/advice\n   📅 for appointments\n   \uFFFD for X-rays/diagnostics\n7. Ends with a thoughtful follow-up question\n8. Is well-spaced and easy to read\n\nIMPROVED RESPONSE:\n"

/-- `ChainOfThoughtPrompts.get_reprompt_template`: quality-issue list, the
original (previous) response, and the improvement instructions. -/
def get_reprompt_template (original_response : String) (quality_issues : List String) : String :=
  "The previous response had some quality issues that need improvement:\n\n" ++
    join_defects quality_issues ++ reprompt_mid ++ original_response ++ reprompt_tail

/-- `BaseAgent.get_specialist_persona`'s per-agent specialization texts. -/
def specializations : AgentType → String
  | AgentType.DIAGNOSTIC =>
      "\nDIAGNOSTIC SPECIALIZATION:\n- Expert in symptom analysis and differential diagnosis\n- Skilled in identifying urgent vs non-urgent conditions\n- Experienced in pain assessment and oral pathology\n- Focuses on thorough symptom evaluation and risk assessment\n"
  | AgentType.TREATMENT =>
      "\nTREATMENT SPECIALIZATION:\n- Expert in comprehensive treatment planning\n- Skilled in explaining complex procedures clearly\n- Experienced in treatment options and alternatives\n- Focuses on patient education and informed consent\n"
  | AgentType.PREVENTION =>
      "\nPREVENTION SPECIALIZATION:\n- Expert in preventive dentistry and oral hygiene\n- Skilled in patient education and behavior modification\n- Experienced in risk factor assessment and management\n- Focuses on long-term oral health maintenance\n"
  | AgentType.EMERGENCY =>
      "\nEMERGENCY SPECIALIZATION:\n- Expert in dental emergency assessment and triage\n- Skilled in pain management and urgent care protocols\n- Experienced in trauma and acute condition management\n- Focuses on immediate care and stabilization\n"
  | AgentType.GENERAL =>
      "\nGENERAL CONSULTATION SPECIALIZATION:\n- Expert in comprehensive dental care coordination\n- Skilled in patient communication and education\n- Experienced in holistic oral health assessment\n- Focuses on overall patient wellbeing and care continuity\n"

/-- `BaseAgent.get_specialist_persona`: base persona plus the agent's
specialization. -/
def get_specialist_persona (agent_type : AgentType) : String :=
  base_persona ++ specializations agent_type

/-- `AgentResponse` dataclass from `multi_agent_system.py`; floats as ℚ. -/
structure AgentResponse where
  content : String
  confidence : ℚ
  agent_type : AgentType
  reasoning_steps : List String
  quality_score : ℚ
  attempts_used : Nat
deriving DecidableEq

/-- The fixed fallback text of `BaseAgent.process_query`'s exception
handler. -/
def fallback_message : String :=
  "I apologize, but I\u0027m having difficulty processing your question right now. Please try again or consider scheduling an in-person consultation."

/-- `BaseAgent.process_query`'s exception path (lines 165-174): a fixed
message, confidence 0, the agent's own type, no reasoning steps, quality
score 0, one attempt. The handler catches every exception, so the caller
always receives an `AgentResponse`. -/
def fallback_response (agent_type : AgentType) : AgentResponse :=
  { content := fallback_message
    confidence := 0
    agent_type := agent_type
    reasoning_steps := []
    quality_score := 0
    attempts_used := 1 }

/-- The line test of `BaseAgent._extract_reasoning_steps`: starts with an
ordinal `1.`-`5.`, a bullet marker, or contains `step` case-insensitively. -/
def is_reasoning_line (line : String) : Bool :=
  ["1.", "2.", "3.", "4.", "5."].any (fun p => py_startswith line p) ||
  ["•", "-", "*"].any (fun p => py_startswith line p) ||
  strContains (py_lower line) "step"

/-- `BaseAgent._extract_reasoning_steps`: split on newlines, strip, keep the
matching lines, limit to 5. -/
def extract_reasoning_steps (response : String) : List String :=
  ((((py_splitlines response).map py_strip).filter is_reasoning_line).take 5)

/-- The predicate of the spec sentence: the line begins with a list marker
or an ordinal numeral. Stated for comparison with `is_reasoning_line`. -/
def begins_with_marker_or_ordinal (line : String) : Bool :=
  match line.data with
  | [] => false
  | c :: _ => c.isDigit || c = '•' || c = '-' || c = '*'

/-- `BaseAgent._calculate_confidence`: 0.5 on an empty history, otherwise
`max(0.1, min(1.0, final_score/100 - (attempts-1)*0.1))` with
`final_score = quality_scores[-1]` and `attempts = len(quality_scores)`. -/
def calculate_confidence (quality_scores : List ℚ) : ℚ :=
  if quality_scores.isEmpty then 1/2
  else
    max (1/10)
      (min 1 (quality_scores.getLastD 0 / 100 -
        ((quality_scores.length : ℚ) - 1) * (1/10)))

/-- `quality_scores[-1].overall_score if quality_scores else 0`: the quality
score that `BaseAgent.process_query` reports on its success path. -/
def reported_quality_score (quality_scores : List ℚ) : ℚ :=
  quality_scores.getLastD 0

/-- Success path of `BaseAgent.process_query` (lines 146-163): assemble the
`AgentResponse` from the triple the reprompting system returns. -/
def process_query_result (agent_type : AgentType) (final_response : String)
    (attempts : Nat) (quality_scores : List ℚ) : AgentResponse :=
  { content := final_response
    confidence := calculate_confidence quality_scores
    agent_type := agent_type
    reasoning_steps := extract_reasoning_steps final_response
    quality_score := reported_quality_score quality_scores
    attempts_used := attempts }

/-- One generate-and-score round of the refinement loop: generated text and
its overall quality score. -/
structure RefinementAttempt where
  text : String
  score : ℚ
deriving DecidableEq

/-- Modelled from the spec: §4.4 RefinementLoop round consumption
(`RepromptingSystem.improve_response_with_reprompting` in
`quality_checker.py` is not under src/). `rounds` abstracts the sequence of
generate-and-score results the completion provider and QualityScorer would
produce, already bounded by the max-attempts budget; the loop stops at the
first attempt whose score meets the accept threshold, inclusive, otherwise
consumes every round. -/
def attemptsTaken (threshold : ℚ) : List RefinementAttempt → List RefinementAttempt
  | [] => []
  | a :: rest => if threshold ≤ a.score then [a] else a :: attemptsTaken threshold rest

/-- Best-scoring attempt of a history (first among equals), used by the
exhausted state. -/
def bestAttempt (best : RefinementAttempt) : List RefinementAttempt → RefinementAttempt
  | [] => best
  | a :: rest => bestAttempt (if a.score > best.score then a else best) rest

/-- Modelled from the spec: §4.4 RefinementLoop
(`RepromptingSystem.improve_response_with_reprompting` is not under src/).
Accepted state returns the accepting attempt; Exhausted state returns the
best-scoring attempt seen so far. The result mirrors the Python return
triple `(final_response, attempts, quality_scores)`, with the chosen
attempt kept whole so its own score is visible. -/
def run_refinement (rounds : List RefinementAttempt) (threshold : ℚ) :
    RefinementAttempt × Nat × List ℚ :=
  match attemptsTaken threshold rounds with
  | [] => (⟨"", 0⟩, 0, [])
  | h :: t =>
      let last := (h :: t).getLastD h
      let final := if threshold ≤ last.score then last else bestAttempt h t
      (final, (h :: t).length, (h :: t).map RefinementAttempt.score)

/-- `quality_score * confidence`, the consensus ranking key of
`get_multi_agent_consensus`. -/
def consensusScore (r : AgentResponse) : ℚ :=
  r.quality_score * r.confidence

/-- CPython's `max(agent_responses, key=lambda r: r.quality_score * r.confidence)`:
first element wins ties, later elements replace only on a strictly greater
key. -/
def pyMaxResponse (best : AgentResponse) : List AgentResponse → AgentResponse
  | [] => best
  | x :: rest => pyMaxResponse (if consensusScore x > consensusScore best then x else best) rest

/-- `MultiAgentOrchestrator.get_multi_agent_consensus`: retrieve context
once, run the routed (primary) agent, additionally run the GENERAL agent on
the same context exactly when the routed type is not GENERAL, and pick the
response maximizing `quality_score * confidence`. `runAgent` abstracts
`BaseAgent.process_query` (an external completion call) and `retrieve`
abstracts `rag_pipeline.retrieve_and_rank`. -/
def get_multi_agent_consensus (runAgent : AgentType → String → AgentResponse)
    (retrieve : String → String) (user_question : String) : AgentResponse :=
  let context := retrieve user_question
  let primary_agent_type := route_query user_question
  let primary_response := runAgent primary_agent_type context
  let agent_responses :=
    if primary_agent_type ≠ AgentType.GENERAL then
      [primary_response, runAgent AgentType.GENERAL context]
    else
      [primary_response]
  match agent_responses with
  | [] => primary_response
  | h :: t => pyMaxResponse h t

/-- A constant specialist stub, used to instantiate the consensus theorem at
concrete inputs. -/
def stubResponse (agent_type : AgentType) (quality confidence : ℚ) : AgentResponse :=
  { content := ""
    confidence := confidence
    agent_type := agent_type
    reasoning_steps := []
    quality_score := quality
    attempts_used := 1 }

/-- A stub agent table: the TREATMENT agent scores 60, every other agent 45
(the consensus scenario of the spec). -/
def stubRunAgent : AgentType → String → AgentResponse :=
  fun a _ => if a = AgentType.TREATMENT then stubResponse a 60 1 else stubResponse a 45 1

/-- A stub retrieval collaborator returning empty context. -/
def stubRetrieve : String → String := fun _ => ""

/-! ## Theorems -/

lemma any_emergency_eq_false {q : String}
    (h : ∀ kw ∈ classification_keywords QueryType.EMERGENCY,
      strContains (py_lower q) kw = false) :
    ((classification_keywords QueryType.EMERGENCY).any
      (fun kw => strContains (py_lower q) kw)) = false := by
  rw [Bool.eq_false_iff]
  intro hx
  obtain ⟨kw, hkw, hc⟩ := List.any_eq_true.mp hx
  rw [h kw hkw] at hc
  exact Bool.noConfusion hc

lemma score_emergency_eq_zero {q : String}
    (h : ∀ kw ∈ classification_keywords QueryType.EMERGENCY,
      strContains (py_lower q) kw = false) :
    scoreOf (py_lower q) QueryType.EMERGENCY = 0 := by
  unfold scoreOf
  rw [List.length_eq_zero]
  exact List.filter_eq_nil_iff.mpr (fun kw hkw => by simp [h kw hkw])

set_option maxRecDepth 8000

/-- Bridge: on questions without emergency keywords, the Python argmax over
the keyword-dict iteration order agrees with the spec's priority rule. -/
lemma classify_eq_spec_of_no_emergency (q : String)
    (h : ∀ kw ∈ classification_keywords QueryType.EMERGENCY,
      strContains (py_lower q) kw = false) :
    classify_query q = spec_classify q := by
  unfold classify_query spec_classify
  simp only [any_emergency_eq_false h, Bool.false_eq_true, if_false, keyword_order,
    List.map_cons, List.map_nil, List.foldr, score_emergency_eq_zero h, pyMaxSnd]
  generalize scoreOf (py_lower q) QueryType.DIAGNOSIS = d
  generalize scoreOf (py_lower q) QueryType.TREATMENT = t
  generalize scoreOf (py_lower q) QueryType.PREVENTION = p
  generalize scoreOf (py_lower q) QueryType.PROCEDURE = r
  clear h
  split_ifs <;> first | rfl | (exfalso; omega)

/-- The spec-worded rule never yields EMERGENCY. -/
lemma spec_classify_ne_emergency (q : String) :
    spec_classify q ≠ QueryType.EMERGENCY := by
  unfold spec_classify
  simp only []
  split_ifs <;> simp

/-- C1: a question whose lowercased text contains any Emergency keyword as a
substring is classified EMERGENCY immediately, regardless of any other
keyword hits. -/
theorem emergency_keyword_preempts (q : String)
    (h : ∃ kw ∈ classification_keywords QueryType.EMERGENCY,
      strContains (py_lower q) kw = true) :
    classify_query q = QueryType.EMERGENCY := by
  unfold classify_query
  rw [if_pos]
  exact List.any_eq_true.mpr h

/-- Witness for C1 at the spec's own emergency scenario. -/
theorem emergency_keyword_preempts_witness :
    (∃ kw ∈ classification_keywords QueryType.EMERGENCY,
      strContains (py_lower "I have severe pain and my face is swollen") kw = true) ∧
    classify_query "I have severe pain and my face is swollen" = QueryType.EMERGENCY := by
  refine ⟨⟨"severe", by decide, by decide⟩, ?_⟩
  exact emergency_keyword_preempts _ ⟨"severe", by decide, by decide⟩

/-- C5: on a question free of Emergency keywords, `classify_query` follows
the spec rule: it returns the category with the strictly greatest keyword
count, ties resolve by the priority order Diagnosis > Treatment > Prevention
> Procedure, and an all-zero count row yields General
(`spec_classify` states exactly that rule). -/
theorem classify_scoring_follows_priority (q : String)
    (h : ∀ kw ∈ classification_keywords QueryType.EMERGENCY,
      strContains (py_lower q) kw = false) :
    classify_query q = spec_classify q :=
  classify_eq_spec_of_no_emergency q h

/-- Witness for C5 on a concrete prevention question. -/
theorem classify_scoring_follows_priority_witness :
    (∀ kw ∈ classification_keywords QueryType.EMERGENCY,
      strContains (py_lower "How can I prevent cavities?") kw = false) ∧
    classify_query "How can I prevent cavities?" = spec_classify "How can I prevent cavities?" := by
  refine ⟨by decide, ?_⟩
  exact classify_scoring_follows_priority _ (by decide)

/-- C10: a question free of Emergency keywords is never classified
EMERGENCY: the Emergency keyword count in the scoring stage is zero, and the
scoring stage cannot select EMERGENCY. -/
theorem no_emergency_keyword_never_emergency (q : String)
    (h : ∀ kw ∈ classification_keywords QueryType.EMERGENCY,
      strContains (py_lower q) kw = false) :
    scoreOf (py_lower q) QueryType.EMERGENCY = 0 ∧
    classify_query q ≠ QueryType.EMERGENCY := by
  refine ⟨score_emergency_eq_zero h, ?_⟩
  rw [classify_eq_spec_of_no_emergency q h]
  exact spec_classify_ne_emergency q

/-- Witness for C10 on a concrete treatment question. -/
theorem no_emergency_keyword_never_emergency_witness :
    (∀ kw ∈ classification_keywords QueryType.EMERGENCY,
      strContains (py_lower "What are my options for replacing a missing tooth?") kw = false) ∧
    scoreOf (py_lower "What are my options for replacing a missing tooth?")
      QueryType.EMERGENCY = 0 ∧
    classify_query "What are my options for replacing a missing tooth?" ≠ QueryType.EMERGENCY := by
  refine ⟨by decide, ?_⟩
  exact no_emergency_keyword_never_emergency _ (by decide)

/-- C3 counterexample: when the EMERGENCY agent's very first generation
round fails, the returned fallback response carries the agent's own
category EMERGENCY, not General, contradicting the claim. -/
theorem fallback_category_not_general :
    (fallback_response AgentType.EMERGENCY).agent_type = AgentType.EMERGENCY ∧
    AgentType.EMERGENCY ≠ AgentType.GENERAL :=
  ⟨rfl, by decide⟩

/-- C3 amended: on a terminal failure the handler always returns the fixed
reassuring message with confidence 0 and quality score 0 (never an
exception to the caller, since the handler catches every exception), but
the response's category is the failing agent's own type, not General. -/
theorem fallback_response_shape (a : AgentType) :
    (fallback_response a).content = fallback_message ∧
    (fallback_response a).confidence = 0 ∧
    (fallback_response a).agent_type = a ∧
    (fallback_response a).reasoning_steps = [] ∧
    (fallback_response a).quality_score = 0 ∧
    (fallback_response a).attempts_used = 1 :=
  ⟨rfl, rfl, rfl, rfl, rfl, rfl⟩

/-- C6: for every non-empty quality-score history the computed confidence
lies in [0.1, 1] (hence is never 0); it is monotonically non-increasing in
the number of attempts at a fixed final score and monotonically
non-decreasing in the final score at a fixed attempt count; confidence 0
occurs only on the total-failure path, which also fixes the fallback
message. -/
theorem confidence_bounds_and_monotonicity :
    (∀ qs : List ℚ, qs ≠ [] →
      1/10 ≤ calculate_confidence qs ∧ calculate_confidence qs ≤ 1 ∧
      calculate_confidence qs ≠ 0) ∧
    (∀ qs₁ qs₂ : List ℚ, qs₁ ≠ [] → qs₂ ≠ [] →
      qs₁.getLastD 0 = qs₂.getLastD 0 → qs₁.length ≤ qs₂.length →
      calculate_confidence qs₂ ≤ calculate_confidence qs₁) ∧
    (∀ qs₁ qs₂ : List ℚ, qs₁ ≠ [] → qs₂ ≠ [] →
      qs₁.length = qs₂.length → qs₁.getLastD 0 ≤ qs₂.getLastD 0 →
      calculate_confidence qs₁ ≤ calculate_confidence qs₂) ∧
    (∀ a : AgentType, (fallback_response a).confidence = 0 ∧
      (fallback_response a).content = fallback_message) := by
  have hne : ∀ qs : List ℚ, qs ≠ [] → qs.isEmpty = false := by
    intro qs h
    cases qs with
    | nil => exact absurd rfl h
    | cons a l => rfl
  refine ⟨?_, ?_, ?_, fun a => ⟨rfl, rfl⟩⟩
  · intro qs h
    unfold calculate_confidence
    rw [hne qs h]
    simp only [Bool.false_eq_true, if_false]
    refine ⟨le_max_left _ _, max_le (by norm_num) (min_le_left _ _), ?_⟩
    have : (0:ℚ) < max (1/10) (min 1 (qs.getLastD 0 / 100 - ((qs.length : ℚ) - 1) * (1/10))) :=
      lt_of_lt_of_le (by norm_num) (le_max_left _ _)
    exact this.ne'
  · intro qs₁ qs₂ h₁ h₂ hlast hlen
    unfold calculate_confidence
    rw [hne qs₁ h₁, hne qs₂ h₂]
    simp only [Bool.false_eq_true, if_false]
    rw [hlast]
    have hc : ((qs₁.length : ℚ)) ≤ ((qs₂.length : ℚ)) := by exact_mod_cast hlen
    gcongr
  · intro qs₁ qs₂ h₁ h₂ hlen hlast
    unfold calculate_confidence
    rw [hne qs₁ h₁, hne qs₂ h₂]
    simp only [Bool.false_eq_true, if_false]
    rw [hlen]
    gcongr

/-- Witness for C6: bounds at history [80]; a second attempt with the same
final score does not raise confidence. -/
theorem confidence_bounds_and_monotonicity_witness :
    (1/10 ≤ calculate_confidence [(80:ℚ)] ∧ calculate_confidence [(80:ℚ)] ≤ 1 ∧
      calculate_confidence [(80:ℚ)] ≠ 0) ∧
    calculate_confidence [(70:ℚ), 80] ≤ calculate_confidence [(80:ℚ)] := by
  constructor
  · exact confidence_bounds_and_monotonicity.1 [(80:ℚ)] (by simp)
  · exact confidence_bounds_and_monotonicity.2.1 [(80:ℚ)] [(70:ℚ), 80]
      (by simp) (by simp) (by norm_num [List.getLastD]) (by norm_num)

lemma attemptsTaken_of_all_fail (threshold : ℚ) :
    ∀ rounds : List RefinementAttempt, (∀ a ∈ rounds, a.score < threshold) →
      attemptsTaken threshold rounds = rounds := by
  intro rounds
  induction rounds with
  | nil => intro _; rfl
  | cons a rest ih =>
      intro hfail
      unfold attemptsTaken
      rw [if_neg (not_le.mpr (hfail a (List.mem_cons_self a rest)))]
      rw [ih (fun x hx => hfail x (List.mem_cons_of_mem a hx))]

lemma bestAttempt_score_ge (l : List RefinementAttempt) :
    ∀ b : RefinementAttempt,
      b.score ≤ (bestAttempt b l).score ∧
      ∀ a ∈ l, a.score ≤ (bestAttempt b l).score := by
  induction l with
  | nil => intro b; simp [bestAttempt]
  | cons a rest ih =>
      intro b
      unfold bestAttempt
      rcases lt_or_le b.score a.score with h | h
      · rw [if_pos h]
        obtain ⟨ih1, ih2⟩ := ih a
        refine ⟨le_trans h.le ih1, ?_⟩
        intro x hx
        rcases List.mem_cons.mp hx with rfl | hx
        · exact ih1
        · exact ih2 x hx
      · rw [if_neg (not_lt.mpr h)]
        obtain ⟨ih1, ih2⟩ := ih b
        refine ⟨ih1, ?_⟩
        intro x hx
        rcases List.mem_cons.mp hx with rfl | hx
        · exact le_trans h ih1
        · exact ih2 x hx

/-- C2 counterexample: with two attempts scoring 80 then 60 against
threshold 90, the loop (modelled from the spec) returns the best attempt
"a" with score 80, yet the call site of `process_query` reports
`quality_scores[-1] = 60`, the last round's score, not the returned
attempt's own score 80. -/
theorem refinement_reported_score_is_last_not_best :
    run_refinement [⟨"a", 80⟩, ⟨"b", 60⟩] 90 = (⟨"a", 80⟩, 2, [80, 60]) ∧
    reported_quality_score (run_refinement [⟨"a", 80⟩, ⟨"b", 60⟩] 90).2.2 = 60 ∧
    (run_refinement [⟨"a", 80⟩, ⟨"b", 60⟩] 90).1.score = 80 ∧
    (60 : ℚ) ≠ 80 := by
  refine ⟨?_, ?_, ?_, by norm_num⟩ <;> rfl

/-- C2 amended: when the budget is exhausted without reaching the accept
threshold, the refinement loop (modelled from the spec, its body not being
under src/) does return the best-scoring attempt of its history — its score
is greater than or equal to every score in the history — but the quality
score reported by `process_query`'s call site is the last round's score,
`quality_scores[-1]`, not the returned attempt's own score. -/
theorem refinement_best_of_selection (rounds : List RefinementAttempt) (threshold : ℚ)
    (hne : rounds ≠ [])
    (hfail : ∀ a ∈ rounds, a.score < threshold) :
    ((run_refinement rounds threshold).2.2 = rounds.map RefinementAttempt.score) ∧
    (∀ s ∈ (run_refinement rounds threshold).2.2,
      s ≤ (run_refinement rounds threshold).1.score) ∧
    reported_quality_score (run_refinement rounds threshold).2.2 =
      (rounds.map RefinementAttempt.score).getLastD 0 := by
  obtain ⟨h, t, rfl⟩ := List.exists_cons_of_ne_nil hne
  have hrun : run_refinement (h :: t) threshold =
      (bestAttempt h t, (h :: t).length, (h :: t).map RefinementAttempt.score) := by
    unfold run_refinement
    rw [attemptsTaken_of_all_fail threshold (h :: t) hfail]
    have hmem : (h :: t).getLastD h ∈ h :: t := by
      rw [List.getLastD_cons]
      exact List.getLastD_mem_cons t h
    have hlast := hfail ((h :: t).getLastD h) hmem
    simp only [if_neg (not_le.mpr hlast)]
  rw [hrun]
  refine ⟨rfl, ?_, rfl⟩
  intro s hs
  obtain ⟨a, ha, rfl⟩ := List.mem_map.mp hs
  obtain ⟨b1, b2⟩ := bestAttempt_score_ge t h
  rcases List.mem_cons.mp ha with rfl | ha
  · exact b1
  · exact b2 a ha

/-- Witness for C2's amended theorem: two failing rounds, 50 then 40,
against threshold 90. -/
theorem refinement_best_of_selection_witness :
    ((⟨"x", 50⟩ : RefinementAttempt) :: [⟨"y", 40⟩] ≠ []) ∧
    (∀ s ∈ (run_refinement [⟨"x", 50⟩, ⟨"y", 40⟩] 90).2.2,
      s ≤ (run_refinement [⟨"x", 50⟩, ⟨"y", 40⟩] 90).1.score) := by
  refine ⟨by simp, ?_⟩
  refine (refinement_best_of_selection [⟨"x", 50⟩, ⟨"y", 40⟩] 90 (by simp) ?_).2.1
  intro a ha
  rcases List.mem_cons.mp ha with rfl | ha
  · norm_num
  · rcases List.mem_cons.mp ha with rfl | ha
    · norm_num
    · exact absurd ha (List.not_mem_nil a)

/-- C4: `get_multi_agent_consensus` runs the routed (primary) agent, runs
the GENERAL agent on the same retrieved context exactly when the routed
type is not GENERAL, and returns a candidate maximizing
`quality_score * confidence`; at an exact tie it returns the primary
agent's response. When the routed type is GENERAL only the primary runs. -/
theorem consensus_maximizes_with_primary_tiebreak
    (runAgent : AgentType → String → AgentResponse) (retrieve : String → String)
    (q : String) :
    (route_query q ≠ AgentType.GENERAL →
      ((get_multi_agent_consensus runAgent retrieve q =
          runAgent (route_query q) (retrieve q)) ∨
        (get_multi_agent_consensus runAgent retrieve q =
          runAgent AgentType.GENERAL (retrieve q))) ∧
      consensusScore (runAgent (route_query q) (retrieve q)) ≤
        consensusScore (get_multi_agent_consensus runAgent retrieve q) ∧
      consensusScore (runAgent AgentType.GENERAL (retrieve q)) ≤
        consensusScore (get_multi_agent_consensus runAgent retrieve q) ∧
      (consensusScore (runAgent (route_query q) (retrieve q)) =
          consensusScore (runAgent AgentType.GENERAL (retrieve q)) →
        get_multi_agent_consensus runAgent retrieve q =
          runAgent (route_query q) (retrieve q))) ∧
    (route_query q = AgentType.GENERAL →
      get_multi_agent_consensus runAgent retrieve q =
        runAgent AgentType.GENERAL (retrieve q)) := by
  constructor
  · intro hne
    have hcon : get_multi_agent_consensus runAgent retrieve q =
        (if consensusScore (runAgent AgentType.GENERAL (retrieve q)) >
            consensusScore (runAgent (route_query q) (retrieve q)) then
          runAgent AgentType.GENERAL (retrieve q)
        else runAgent (route_query q) (retrieve q)) := by
      simp only [get_multi_agent_consensus]
      rw [if_pos hne]
      simp only [pyMaxResponse]
    rw [hcon]
    rcases lt_or_le (consensusScore (runAgent (route_query q) (retrieve q)))
      (consensusScore (runAgent AgentType.GENERAL (retrieve q))) with h | h
    · rw [if_pos h]
      exact ⟨Or.inr rfl, h.le, le_refl _, fun he => absurd he (ne_of_lt h)⟩
    · rw [if_neg (not_lt.mpr h)]
      exact ⟨Or.inl rfl, le_refl _, h, fun _ => rfl⟩
  · intro hg
    simp only [get_multi_agent_consensus]
    rw [if_neg (not_not_intro hg)]
    simp only [pyMaxResponse]
    rw [hg]

/-- Witness for C4 with the stub agents of the spec scenario
(primary = Treatment at 60, General at 45). -/
theorem consensus_maximizes_with_primary_tiebreak_witness :
    route_query "I need treatment" ≠ AgentType.GENERAL ∧
    consensusScore (stubRunAgent (route_query "I need treatment")
        (stubRetrieve "I need treatment")) ≤
      consensusScore (get_multi_agent_consensus stubRunAgent stubRetrieve
        "I need treatment") := by
  refine ⟨by decide, ?_⟩
  exact ((consensus_maximizes_with_primary_tiebreak stubRunAgent stubRetrieve
    "I need treatment").1 (by decide)).2.1

/-- C9 counterexample: the line "next step: rinse" is extracted as a
reasoning highlight because it contains the word "step", yet it begins with
neither a list marker nor an ordinal numeral. -/
theorem reasoning_step_without_marker :
    extract_reasoning_steps "next step: rinse" = ["next step: rinse"] ∧
    begins_with_marker_or_ordinal "next step: rinse" = false :=
  ⟨rfl, rfl⟩

/-- C9 amended: at most 5 reasoning-highlight lines are ever extracted, and
every extracted line begins with one of the ordinals 1.-5. or a bullet
marker, or contains the word "step" case-insensitively (the extraction is
exactly the filter of `_extract_reasoning_steps`). -/
theorem extract_reasoning_steps_bounded (response : String) :
    (extract_reasoning_steps response).length ≤ 5 ∧
    ∀ l ∈ extract_reasoning_steps response,
      (∃ p ∈ (["1.", "2.", "3.", "4.", "5.", "•", "-", "*"] : List String),
        py_startswith l p = true) ∨
      strContains (py_lower l) "step" = true := by
  constructor
  · unfold extract_reasoning_steps
    rw [List.length_take]
    exact min_le_left _ _
  · intro l hl
    unfold extract_reasoning_steps at hl
    have hmem := List.mem_of_mem_take hl
    have hline := List.of_mem_filter hmem
    unfold is_reasoning_line at hline
    rcases Bool.or_eq_true_iff.mp hline with h | h
    · rcases Bool.or_eq_true_iff.mp h with h | h
      · obtain ⟨p, hp, hv⟩ := List.any_eq_true.mp h
        refine Or.inl ⟨p, ?_, hv⟩
        fin_cases hp <;> simp
      · obtain ⟨p, hp, hv⟩ := List.any_eq_true.mp h
        refine Or.inl ⟨p, ?_, hv⟩
        fin_cases hp <;> simp
    · exact Or.inr h

/-- Witness for C9's amended theorem on a concrete numbered answer. -/
theorem extract_reasoning_steps_bounded_witness :
    (extract_reasoning_steps "1. brush twice\n2. floss daily").length ≤ 5 :=
  (extract_reasoning_steps_bounded "1. brush twice\n2. floss daily").1

lemma isPrefixOf_refl_append (n t : List Char) : n.isPrefixOf (n ++ t) = true := by
  induction n with
  | nil => cases t <;> rfl
  | cons c cs ih => simp [List.isPrefixOf, ih]

lemma occursIn_nil_needle (l : List Char) : occursIn [] l = true := by
  cases l with
  | nil => rfl
  | cons c rest => simp [occursIn, List.isPrefixOf]

lemma occursIn_of_isPrefixOf {n l : List Char} (h : n.isPrefixOf l = true) :
    occursIn n l = true := by
  cases l with
  | nil =>
      cases n with
      | nil => rfl
      | cons c cs => simp [List.isPrefixOf] at h
  | cons c rest =>
      simp only [occursIn]
      rw [h, Bool.true_or]

lemma occursIn_self (n : List Char) : occursIn n n = true := by
  have := isPrefixOf_refl_append n []
  rw [List.append_nil] at this
  exact occursIn_of_isPrefixOf this

lemma occursIn_append_left (s : List Char) {n l : List Char}
    (h : occursIn n l = true) : occursIn n (s ++ l) = true := by
  induction s with
  | nil => exact h
  | cons c cs ih =>
      simp only [List.cons_append, occursIn, List.append_eq]
      rw [ih, Bool.or_true]

lemma isPrefixOf_extend (s : List Char) {n l : List Char}
    (h : n.isPrefixOf l = true) : n.isPrefixOf (l ++ s) = true := by
  induction n generalizing l with
  | nil => exact isPrefixOf_refl_append [] (l ++ s)
  | cons c cs ih =>
      cases l with
      | nil => simp [List.isPrefixOf] at h
      | cons d rest =>
          simp only [List.isPrefixOf, Bool.and_eq_true] at h
          simp only [List.cons_append, List.isPrefixOf, Bool.and_eq_true]
          exact ⟨h.1, ih h.2⟩

lemma occursIn_append_right (s : List Char) {n l : List Char}
    (h : occursIn n l = true) : occursIn n (l ++ s) = true := by
  induction l with
  | nil =>
      have hn : n = [] := by
        cases n with
        | nil => rfl
        | cons c cs => simp [occursIn, List.isEmpty] at h
      subst hn
      exact occursIn_nil_needle ([] ++ s)
  | cons c rest ih =>
      simp only [occursIn] at h
      simp only [List.cons_append, occursIn, List.append_eq]
      rcases Bool.or_eq_true_iff.mp h with h | h
      · have h2 := isPrefixOf_extend s h
        rw [List.cons_append] at h2
        rw [h2, Bool.true_or]
      · rw [ih h, Bool.or_true]

/-- A string occurs in itself. -/
lemma strContains_self (s : String) : strContains s s = true :=
  occursIn_self s.data

/-- A prefix of a concatenation occurs in it. -/
lemma strContains_front (pre rest : String) : strContains (pre ++ rest) pre = true := by
  unfold strContains
  rw [String.data_append]
  exact occursIn_of_isPrefixOf (isPrefixOf_refl_append pre.data rest.data)

/-- A suffix of a concatenation occurs in it. -/
lemma strContains_suffix (pre last : String) : strContains (pre ++ last) last = true := by
  unfold strContains
  rw [String.data_append]
  exact occursIn_append_left pre.data (occursIn_self last.data)

/-- Occurrence is stable under appending on the right. -/
lemma strContains_append_right (s : String) {hay n : String}
    (h : strContains hay n = true) : strContains (hay ++ s) n = true := by
  unfold strContains at h ⊢
  rw [String.data_append]
  exact occursIn_append_right s.data h

/-- Occurrence is stable under appending on the left. -/
lemma strContains_append_left (s : String) {hay n : String}
    (h : strContains hay n = true) : strContains (s ++ hay) n = true := by
  unfold strContains at h ⊢
  rw [String.data_append]
  exact occursIn_append_left s.data h

/-- Each formatted defect line occurs in the joined defect list. -/
lemma strContains_join_defects {issues : List String} {i : String} (h : i ∈ issues) :
    strContains (join_defects issues) ("- " ++ i) = true := by
  induction issues with
  | nil => exact absurd h (List.not_mem_nil i)
  | cons j rest ih =>
      rcases List.mem_cons.mp h with rfl | h
      · cases rest with
        | nil => exact strContains_self ("- " ++ i)
        | cons k more =>
            show strContains ("- " ++ i ++ "\n" ++ join_defects (k :: more)) ("- " ++ i) = true
            exact strContains_append_right _ (strContains_append_right _ (strContains_self _))
      · cases rest with
        | nil => exact absurd h (List.not_mem_nil i)
        | cons k more =>
            show strContains ("- " ++ j ++ "\n" ++ join_defects (k :: more)) ("- " ++ i) = true
            exact strContains_append_left _ (ih h)

/-- The persona block occurs in every composed chain-of-thought prompt. -/
lemma persona_in_cot_prompt (query_type : QueryType) (user_question context : String) :
    strContains (get_chain_of_thought_prompt query_type user_question context)
      base_persona = true := by
  unfold get_chain_of_thought_prompt
  exact strContains_append_right _ (strContains_append_right _ (strContains_append_right _
    (strContains_append_right _ (strContains_append_right _ (strContains_append_right _
      (strContains_front _ _))))))

/-- C7 counterexample: the persona block is part of every composed prompt,
but at a concrete reprompt call the persona text does not occur anywhere in
the reprompt, and neither does the compose call formatting-rules block —
the reprompt entry point does not even receive the original prompt. -/
theorem reprompt_drops_persona :
    strContains (get_chain_of_thought_prompt QueryType.TREATMENT "Do you do implants?" "")
      base_persona = true ∧
    strContains (get_reprompt_template "Yes, I do implants at my practice."
      ["Missing follow-up question"]) base_persona = false ∧
    strContains (get_reprompt_template "Yes, I do implants at my practice."
      ["Missing follow-up question"]) cot_requirements = false :=
  ⟨persona_in_cot_prompt QueryType.TREATMENT "Do you do implants?" "", by decide, by decide⟩

/-- C7 amended: the reprompt template appends the previous answer and an
itemized "- "-prefixed defect list and requests an improved answer, but it
does not preserve the persona block or the formatting rules of the original
compose call: it is built without the original prompt, and the persona text
and formatting-rules block do not occur in it (shown at a concrete call by
`reprompt_drops_persona`). -/
theorem reprompt_appends_answer_and_defects (original_response : String)
    (quality_issues : List String) (issue : String) (h : issue ∈ quality_issues) :
    strContains (get_reprompt_template original_response quality_issues)
      original_response = true ∧
    strContains (get_reprompt_template original_response quality_issues)
      ("- " ++ issue) = true := by
  unfold get_reprompt_template
  constructor
  · exact strContains_append_right _ (strContains_suffix _ _)
  · exact strContains_append_right _ (strContains_append_right _ (strContains_append_right _
      (strContains_append_left _ (strContains_join_defects h))))

/-- Witness for C7's amended theorem at a concrete reprompt call. -/
theorem reprompt_appends_answer_and_defects_witness :
    ("No emoji used" ∈ ["No emoji used", "Too long"]) ∧
    strContains (get_reprompt_template "The tooth looks fine."
      ["No emoji used", "Too long"]) ("- " ++ "No emoji used") = true := by
  refine ⟨by decide, ?_⟩
  exact (reprompt_appends_answer_and_defects "The tooth looks fine."
    ["No emoji used", "Too long"] "No emoji used" (by decide)).2

/-- C8 counterexample: the agent handling a Procedure-classified question is
the same TREATMENT agent with the same persona that handles Treatment
questions — there is no Procedure specialist persona (`AgentType` has no
PROCEDURE member), contradicting one-persona-per-category with a Procedure
question handled by a Procedure persona. -/
theorem procedure_shares_treatment_persona :
    get_specialist_persona (routing_map QueryType.PROCEDURE) =
      get_specialist_persona (routing_map QueryType.TREATMENT) ∧
    QueryType.PROCEDURE ≠ QueryType.TREATMENT ∧
    classify_query "Can you explain how a root canal works?" = QueryType.PROCEDURE ∧
    route_query "Can you explain how a root canal works?" = AgentType.TREATMENT :=
  ⟨rfl, by decide, by decide, by decide⟩

/-- C8 amended: personas are keyed by the five-member `AgentType` (which has
no PROCEDURE member), one distinct persona per agent type; a question
classified Procedure is routed to the TREATMENT agent and is therefore
handled with the Treatment persona. -/
theorem personas_per_agent_type :
    (∀ a b : AgentType, get_specialist_persona a = get_specialist_persona b → a = b) ∧
    (∀ q : String, classify_query q = QueryType.PROCEDURE →
      route_query q = AgentType.TREATMENT) ∧
    routing_map QueryType.PROCEDURE = AgentType.TREATMENT := by
  refine ⟨by decide, ?_, rfl⟩
  intro q h
  unfold route_query
  rw [h]
  rfl

/-- Witness for C8's amended theorem at the source's own procedure query. -/
theorem personas_per_agent_type_witness :
    classify_query "Can you explain how a root canal works?" = QueryType.PROCEDURE ∧
    route_query "Can you explain how a root canal works?" = AgentType.TREATMENT := by
  refine ⟨by decide, ?_⟩
  exact personas_per_agent_type.2.1 _ (by decide)

end DrChatbot
